import Mathlib

/-!
Verification of the Solar Position & Illumination Model of the
sunshade_f1 repository (src/src/App.jsx).

The embedding below mirrors the source:
  * `getSunPosition` (App.jsx lines 17-28): delegates to the external
    astronomical collaborator `SunCalc.getPosition` (modelled as a function
    parameter) and converts the returned altitude/azimuth angles to a
    scene-frame 3D vector with `RADIUS = 50`.
  * `deriveIllumination` (the illumination branch of the real-time update
    effect, App.jsx lines 259-279): the pure day/night policy that maps an
    altitude to directional-light intensity, hemisphere-light intensity,
    the two hemisphere-light colors, and the sun-marker visibility flag.
  * `formatTime` (App.jsx lines 30-34): renders a minute-of-day count as
    a zero-padded "HH:MM" string.

JavaScript floating-point arithmetic is embedded as exact real arithmetic
(the spec states its postconditions in exact reals); JavaScript integers
and strings are embedded as `Nat` and `String`.
-/

namespace SunshadeF1

open Real

/-- Timestamp handed to the astronomical collaborator; its structure is
never inspected by the core, so an integer stands in for it. -/
abbrev Date := ℤ

/-- RADIUS constant of App.jsx line 10: the sun orbit radius. -/
def RADIUS : ℝ := 50

/-- Output of the astronomical collaborator `SunCalc.getPosition`:
altitude and azimuth in radians (azimuth convention: 0 = south,
increasing toward west). -/
structure SolarAngles where
  altitude : ℝ
  azimuth : ℝ

/-- Return value of `getSunPosition`: scene vector plus the raw angles. -/
structure SunPosition where
  x : ℝ
  y : ℝ
  z : ℝ
  altitude : ℝ
  azimuth : ℝ

/-- Embedding of `getSunPosition` (App.jsx lines 17-28).  The external
astronomical collaborator (`SunCalc.getPosition`, a black box per the
spec) is passed as the function argument `sunCalcGetPosition`. -/
noncomputable def getSunPosition (sunCalcGetPosition : Date → ℝ → ℝ → SolarAngles)
    (date : Date) (lat lon : ℝ) : SunPosition :=
  let pos := sunCalcGetPosition date lat lon
  let altitude := pos.altitude
  let azimuth := pos.azimuth
  let r_flat := Real.cos altitude * RADIUS
  let y := Real.sin altitude * RADIUS
  let x := -r_flat * Real.sin azimuth
  let z := r_flat * Real.cos azimuth
  { x := x, y := y, z := z, altitude := altitude, azimuth := azimuth }

/-- A constant astronomical collaborator, used to drive `getSunPosition`
with chosen angles in angle-level statements. -/
def constAngles (alt az : ℝ) : Date → ℝ → ℝ → SolarAngles :=
  fun _ _ _ => { altitude := alt, azimuth := az }

/-- Illumination state written to the scene handles by the update effect:
directional-light intensity, hemisphere-light intensity, hemisphere sky
color, hemisphere ground color (both as hex numbers, as in the source)
and the sun-marker visibility flag. -/
structure IlluminationState where
  directionalIntensity : ℝ
  ambientIntensity : ℝ
  ambientColor : ℕ
  groundColor : ℕ
  sunMarkerVisible : Bool

/-- Embedding of the day/night illumination policy of the real-time
update effect (App.jsx lines 259-279), as the pure function of the
altitude that the effect realises. -/
noncomputable def deriveIllumination (altitude : ℝ) : IlluminationState :=
  if altitude ≤ 0 then
    { directionalIntensity := 0
      ambientIntensity := 0.05
      ambientColor := 0x111133
      groundColor := 0x000000
      sunMarkerVisible := false }
  else
    let angleFactor := Real.sin altitude
    { directionalIntensity := max 0.5 (angleFactor * 3.0)
      ambientIntensity := 0.4 + angleFactor * 0.4
      ambientColor := 0xffffff
      groundColor := 0x444444
      sunMarkerVisible := true }

/-- Embedding of `String.prototype.padStart(targetLength, padChar)` as
used in `formatTime`: pad on the left up to the target length. -/
def padStart (s : String) (targetLen : Nat) (pad : Char) : String :=
  if targetLen ≤ s.length then s
  else String.mk (List.replicate (targetLen - s.length) pad) ++ s

/-- Embedding of `formatTime` (App.jsx lines 30-34). -/
def formatTime (totalMinutes : Nat) : String :=
  let h := totalMinutes / 60
  let m := totalMinutes % 60
  padStart (toString h) 2 '0' ++ ":" ++ padStart (toString m) 2 '0'

/-- Expected zero-padded two-digit decimal rendering of a number below
100, used to state what "HH" and "MM" mean in the formatTime claim. -/
def twoDigit (n : Nat) : String :=
  ⟨[Char.ofNat (48 + n / 10), Char.ofNat (48 + n % 10)]⟩

/-! ### Helper lemmas shared by several claims -/

/-- Unfolding of the night branch of the illumination policy. -/
theorem deriveIllumination_of_nonpos {a : ℝ} (h : a ≤ 0) :
    deriveIllumination a =
      { directionalIntensity := 0
        ambientIntensity := 0.05
        ambientColor := 0x111133
        groundColor := 0x000000
        sunMarkerVisible := false } := by
  simp [deriveIllumination, h]

/-- Unfolding of the day branch of the illumination policy. -/
theorem deriveIllumination_of_pos {a : ℝ} (h : 0 < a) :
    deriveIllumination a =
      { directionalIntensity := max 0.5 (Real.sin a * 3.0)
        ambientIntensity := 0.4 + Real.sin a * 0.4
        ambientColor := 0xffffff
        groundColor := 0x444444
        sunMarkerVisible := true } := by
  simp [deriveIllumination, not_le.mpr h]

/-- Unfolding of `getSunPosition` driven by a constant collaborator. -/
theorem getSunPosition_constAngles (alt az : ℝ) (d : Date) (lat lon : ℝ) :
    getSunPosition (constAngles alt az) d lat lon =
      { x := -(Real.cos alt * RADIUS) * Real.sin az
        y := Real.sin alt * RADIUS
        z := (Real.cos alt * RADIUS) * Real.cos az
        altitude := alt
        azimuth := az } := rfl

/-! ### Claim theorems -/

/-- Claim C1: for every date, latitude and longitude, `computeSunVector`
(source name `getSunPosition`) first obtains altitude and azimuth from the
astronomical collaborator and returns the vector
x = -(cos altitude * RADIUS) * sin azimuth, y = sin altitude * RADIUS,
z = (cos altitude * RADIUS) * cos azimuth with RADIUS = 50, together with
the raw altitude and azimuth unchanged. -/
theorem C1_computeSunVector_formula
    (sunCalcGetPosition : Date → ℝ → ℝ → SolarAngles) (date : Date) (lat lon : ℝ) :
    getSunPosition sunCalcGetPosition date lat lon =
      { x := -(Real.cos (sunCalcGetPosition date lat lon).altitude * 50) *
              Real.sin (sunCalcGetPosition date lat lon).azimuth
        y := Real.sin (sunCalcGetPosition date lat lon).altitude * 50
        z := (Real.cos (sunCalcGetPosition date lat lon).altitude * 50) *
              Real.cos (sunCalcGetPosition date lat lon).azimuth
        altitude := (sunCalcGetPosition date lat lon).altitude
        azimuth := (sunCalcGetPosition date lat lon).azimuth } ∧
    RADIUS = 50 :=
  ⟨rfl, rfl⟩

/-- Witness for C1 at the concrete collaborator returning altitude 1,
azimuth 2, evaluated at date 0, latitude 0, longitude 0. -/
theorem C1_witness :
    getSunPosition (constAngles 1 2) 0 0 0 =
      { x := -(Real.cos 1 * 50) * Real.sin 2
        y := Real.sin 1 * 50
        z := (Real.cos 1 * 50) * Real.cos 2
        altitude := 1
        azimuth := 2 } ∧
    RADIUS = 50 :=
  C1_computeSunVector_formula (constAngles 1 2) 0 0 0

/-- Claim C2: the illumination policy is the exact two-branch policy: for
altitude at or below 0 the directional intensity is 0, the ambient
intensity 0.05, the color the fixed night tint, and the marker hidden;
for positive altitude, with angleFactor = sin altitude, the directional
intensity is max 0.5 (angleFactor * 3.0), the ambient intensity
0.4 + angleFactor * 0.4, the color the fixed day tint, and the marker
shown; and the night tint differs from the day tint. -/
theorem C2_illumination_policy (altitude : ℝ) :
    (altitude ≤ 0 →
      deriveIllumination altitude =
        { directionalIntensity := 0
          ambientIntensity := 0.05
          ambientColor := 0x111133
          groundColor := 0x000000
          sunMarkerVisible := false }) ∧
    (0 < altitude →
      deriveIllumination altitude =
        { directionalIntensity := max 0.5 (Real.sin altitude * 3.0)
          ambientIntensity := 0.4 + Real.sin altitude * 0.4
          ambientColor := 0xffffff
          groundColor := 0x444444
          sunMarkerVisible := true }) ∧
    (0x111133 : ℕ) ≠ 0xffffff :=
  ⟨fun h => deriveIllumination_of_nonpos h,
   fun h => deriveIllumination_of_pos h,
   by decide⟩

/-- Witness for C2 at altitude -1 (night branch) and altitude 1 (day
branch). -/
theorem C2_witness :
    deriveIllumination (-1) =
      { directionalIntensity := 0
        ambientIntensity := 0.05
        ambientColor := 0x111133
        groundColor := 0x000000
        sunMarkerVisible := false } ∧
    deriveIllumination 1 =
      { directionalIntensity := max 0.5 (Real.sin 1 * 3.0)
        ambientIntensity := 0.4 + Real.sin 1 * 0.4
        ambientColor := 0xffffff
        groundColor := 0x444444
        sunMarkerVisible := true } :=
  ⟨(C2_illumination_policy (-1)).1 (by norm_num),
   (C2_illumination_policy 1).2.1 (by norm_num)⟩

/-- Claim C3: on (0, pi/2] the directional intensity is monotonically
non-decreasing in the altitude, bounded in [0.5, 3.0], and attains the
peak 3.0 only at altitude pi/2. -/
theorem C3_directional_monotone_bounded :
    (∀ a b : ℝ, 0 < a → a ≤ b → b ≤ π / 2 →
      (deriveIllumination a).directionalIntensity ≤
        (deriveIllumination b).directionalIntensity) ∧
    (∀ a : ℝ, 0 < a → a ≤ π / 2 →
      0.5 ≤ (deriveIllumination a).directionalIntensity ∧
      (deriveIllumination a).directionalIntensity ≤ 3.0 ∧
      ((deriveIllumination a).directionalIntensity = 3.0 ↔ a = π / 2)) := by
  constructor
  · intro a b ha hab hb
    rw [deriveIllumination_of_pos ha, deriveIllumination_of_pos (lt_of_lt_of_le ha hab)]
    have hsin : Real.sin a ≤ Real.sin b := by
      apply Real.strictMonoOn_sin.monotoneOn ⟨by nlinarith [Real.pi_pos], by linarith⟩
        ⟨by nlinarith [Real.pi_pos], hb⟩ hab
    exact max_le_max le_rfl (by nlinarith)
  · intro a ha hb
    rw [deriveIllumination_of_pos ha]
    refine ⟨le_max_left _ _, ?_, ?_, ?_⟩
    · have := Real.sin_le_one a
      exact max_le (by norm_num) (by nlinarith)
    · intro h
      have hs1 : Real.sin a = 1 := by
        rcases max_cases (0.5 : ℝ) (Real.sin a * 3.0) with ⟨h1, _⟩ | ⟨h1, _⟩ <;>
          rw [h1] at h <;> nlinarith
      exact Real.injOn_sin ⟨by nlinarith [Real.pi_pos], hb⟩
        ⟨by nlinarith [Real.pi_pos], le_rfl⟩ (by rw [hs1, Real.sin_pi_div_two])
    · intro h
      rw [h, Real.sin_pi_div_two]
      norm_num

/-- Witness for C3 at altitude pi/2: the directional intensity there is at
least 0.5, at most 3.0, and equals 3.0. -/
theorem C3_witness :
    0.5 ≤ (deriveIllumination (π / 2)).directionalIntensity ∧
    (deriveIllumination (π / 2)).directionalIntensity ≤ 3.0 ∧
    ((deriveIllumination (π / 2)).directionalIntensity = 3.0 ↔ π / 2 = π / 2) :=
  C3_directional_monotone_bounded.2 (π / 2) (by positivity) le_rfl

/-- Claim C4: the illumination has a jump of exactly the day floor at the
horizon: directional intensity 0 for altitude at or below 0; some
epsilon-band (0, epsilon) on which the directional intensity is exactly
0.5 and the marker is shown; the ambient intensity tends to 0.4 as the
altitude decreases to 0 from above; and the directional intensity is at
least 0.5 for every positive altitude. -/
theorem C4_horizon_jump :
    (∀ a : ℝ, a ≤ 0 → (deriveIllumination a).directionalIntensity = 0) ∧
    (∃ ε : ℝ, 0 < ε ∧ ∀ a : ℝ, 0 < a → a < ε →
      (deriveIllumination a).directionalIntensity = 0.5 ∧
      (deriveIllumination a).sunMarkerVisible = true) ∧
    Filter.Tendsto (fun a => (deriveIllumination a).ambientIntensity)
      (nhdsWithin 0 (Set.Ioi 0)) (nhds 0.4) ∧
    (∀ a : ℝ, 0 < a → 0.5 ≤ (deriveIllumination a).directionalIntensity) := by
  refine ⟨fun a ha => by rw [deriveIllumination_of_nonpos ha], ?_, ?_, ?_⟩
  · refine ⟨1 / 6, by norm_num, fun a ha hae => ?_⟩
    rw [deriveIllumination_of_pos ha]
    have := Real.sin_lt ha
    exact ⟨max_eq_left (by nlinarith), rfl⟩
  · have h1 : Filter.Tendsto (fun a : ℝ => 0.4 + Real.sin a * 0.4)
        (nhdsWithin 0 (Set.Ioi 0)) (nhds 0.4) := by
      have hc : ContinuousAt (fun a : ℝ => 0.4 + Real.sin a * 0.4) 0 := by fun_prop
      have h2 := hc.tendsto
      simp only [Real.sin_zero, zero_mul, add_zero] at h2
      exact h2.mono_left nhdsWithin_le_nhds
    refine h1.congr' ?_
    filter_upwards [self_mem_nhdsWithin] with a ha
    rw [deriveIllumination_of_pos ha]
  · intro a ha
    rw [deriveIllumination_of_pos ha]
    exact le_max_left _ _

/-- Witness for C4 at altitudes -1 and 1: directional intensity 0 below
the horizon and at least 0.5 above it. -/
theorem C4_witness :
    (deriveIllumination (-1)).directionalIntensity = 0 ∧
    0.5 ≤ (deriveIllumination 1).directionalIntensity :=
  ⟨C4_horizon_jump.1 (-1) (by norm_num),
   C4_horizon_jump.2.2.2 1 (by norm_num)⟩

/-- Counterexample to claim C5 as stated: at the pole, two distinct angle
pairs with altitude pi/2 (which lies in (-pi/2, pi/2]) and azimuths 0 and
pi yield the same scene vector, so the angles-to-point mapping is not
injective over all azimuths for altitude in (-pi/2, pi/2]. -/
theorem C5_counterexample :
    (getSunPosition (constAngles (π / 2) 0) 0 0 0).azimuth ≠
      (getSunPosition (constAngles (π / 2) π) 0 0 0).azimuth ∧
    (getSunPosition (constAngles (π / 2) 0) 0 0 0).x =
      (getSunPosition (constAngles (π / 2) π) 0 0 0).x ∧
    (getSunPosition (constAngles (π / 2) 0) 0 0 0).y =
      (getSunPosition (constAngles (π / 2) π) 0 0 0).y ∧
    (getSunPosition (constAngles (π / 2) 0) 0 0 0).z =
      (getSunPosition (constAngles (π / 2) π) 0 0 0).z ∧
    (π / 2 : ℝ) ∈ Set.Ioc (-(π / 2)) (π / 2) := by
  have hpi := Real.pi_pos
  refine ⟨?_, ?_, rfl, ?_, ⟨by linarith, le_rfl⟩⟩
  · simp only [getSunPosition_constAngles]
    exact fun h => absurd h (by linarith)
  · simp [getSunPosition_constAngles, Real.cos_pi_div_two]
  · simp [getSunPosition_constAngles, Real.cos_pi_div_two]

/-- Claim C5, amended: the angles-to-point mapping is injective once the
degenerate pole altitude pi/2 is excluded and the azimuth is confined to
one period (-pi, pi]: distinct pairs with altitude in (-pi/2, pi/2) and
azimuth in (-pi, pi] yield distinct scene vectors. -/
theorem C5_injective_amended :
    ∀ a1 z1 a2 z2 : ℝ,
      a1 ∈ Set.Ioo (-(π / 2)) (π / 2) → a2 ∈ Set.Ioo (-(π / 2)) (π / 2) →
      z1 ∈ Set.Ioc (-π) π → z2 ∈ Set.Ioc (-π) π →
      (getSunPosition (constAngles a1 z1) 0 0 0).x =
        (getSunPosition (constAngles a2 z2) 0 0 0).x →
      (getSunPosition (constAngles a1 z1) 0 0 0).y =
        (getSunPosition (constAngles a2 z2) 0 0 0).y →
      (getSunPosition (constAngles a1 z1) 0 0 0).z =
        (getSunPosition (constAngles a2 z2) 0 0 0).z →
      a1 = a2 ∧ z1 = z2 := by
  intro a1 z1 a2 z2 ha1 ha2 hz1 hz2 hx hy hz
  simp only [getSunPosition_constAngles, RADIUS] at hx hy hz
  have hsin : Real.sin a1 = Real.sin a2 := by linarith
  have haeq : a1 = a2 :=
    Real.injOn_sin ⟨ha1.1.le, ha1.2.le⟩ ⟨ha2.1.le, ha2.2.le⟩ hsin
  subst haeq
  have hcpos : 0 < Real.cos a1 := Real.cos_pos_of_mem_Ioo ha1
  have h50 : (Real.cos a1 * 50) ≠ 0 := by positivity
  have hsz : Real.sin z1 = Real.sin z2 :=
    mul_left_cancel₀ (neg_ne_zero.mpr h50) hx
  have hcz : Real.cos z1 = Real.cos z2 := mul_left_cancel₀ h50 hz
  have hone : Real.cos (z1 - z2) = 1 := by
    rw [Real.cos_sub, hsz, hcz]
    nlinarith [Real.sin_sq_add_cos_sq z2]
  have hlt1 : -(2 * π) < z1 - z2 := by nlinarith [hz1.1, hz2.2, Real.pi_pos]
  have hlt2 : z1 - z2 < 2 * π := by nlinarith [hz1.2, hz2.1, Real.pi_pos]
  have hz0 := (Real.cos_eq_one_iff_of_lt_of_lt hlt1 hlt2).mp hone
  exact ⟨rfl, by linarith⟩

/-- Witness for C5 amended, at the pair (0, 0) against itself. -/
theorem C5_witness : (0 : ℝ) = 0 ∧ (0 : ℝ) = 0 := by
  have hpi := Real.pi_pos
  exact C5_injective_amended 0 0 0 0
    ⟨by linarith, by linarith⟩ ⟨by linarith, by linarith⟩
    ⟨by linarith, by linarith⟩ ⟨by linarith, by linarith⟩ rfl rfl rfl

/-- Counterexample to claim C6 as stated: at altitude -pi/6, which lies in
(-pi/2, pi/2], the scene vector has a strictly negative y component, so
the point is not on the upper hemisphere. -/
theorem C6_counterexample :
    (-(π / 6) : ℝ) ∈ Set.Ioc (-(π / 2)) (π / 2) ∧
    (getSunPosition (constAngles (-(π / 6)) 0) 0 0 0).y < 0 := by
  have hpi := Real.pi_pos
  refine ⟨⟨by linarith, by linarith⟩, ?_⟩
  simp only [getSunPosition_constAngles, RADIUS, Real.sin_neg, Real.sin_pi_div_six]
  norm_num

/-- Claim C6, amended: for every altitude and azimuth the scene vector
lies on the sphere of radius RADIUS around the origin (in exact real
arithmetic), and its y component is non-negative when the altitude lies
in [0, pi/2] (sun at or above the horizon); the upper-hemisphere
restriction fails for negative altitudes. -/
theorem C6_sphere_amended :
    ∀ alt az : ℝ,
      (getSunPosition (constAngles alt az) 0 0 0).x ^ 2 +
        (getSunPosition (constAngles alt az) 0 0 0).y ^ 2 +
        (getSunPosition (constAngles alt az) 0 0 0).z ^ 2 = RADIUS ^ 2 ∧
      (0 ≤ alt → alt ≤ π / 2 → 0 ≤ (getSunPosition (constAngles alt az) 0 0 0).y) := by
  intro alt az
  simp only [getSunPosition_constAngles, RADIUS]
  constructor
  · nlinarith [Real.sin_sq_add_cos_sq alt, Real.sin_sq_add_cos_sq az]
  · intro h0 h2
    have hpi := Real.pi_pos
    have := Real.sin_nonneg_of_nonneg_of_le_pi h0 (by linarith)
    linarith

/-- Witness for C6 amended at altitude 0, azimuth 0. -/
theorem C6_witness :
    (getSunPosition (constAngles 0 0) 0 0 0).x ^ 2 +
      (getSunPosition (constAngles 0 0) 0 0 0).y ^ 2 +
      (getSunPosition (constAngles 0 0) 0 0 0).z ^ 2 = RADIUS ^ 2 ∧
    0 ≤ (getSunPosition (constAngles 0 0) 0 0 0).y :=
  ⟨(C6_sphere_amended 0 0).1, (C6_sphere_amended 0 0).2 le_rfl (by positivity)⟩

/-- Claim C7: boundary values of the angle-to-vector conversion, in exact
real arithmetic: altitude pi/2 gives (0, RADIUS, 0) for every azimuth;
altitude 0 with azimuth 0 gives (0, 0, RADIUS); altitude 0 with azimuth
pi/2 gives (-RADIUS, 0, 0). -/
theorem C7_boundary_values :
    (∀ az : ℝ,
      (getSunPosition (constAngles (π / 2) az) 0 0 0).x = 0 ∧
      (getSunPosition (constAngles (π / 2) az) 0 0 0).y = RADIUS ∧
      (getSunPosition (constAngles (π / 2) az) 0 0 0).z = 0) ∧
    ((getSunPosition (constAngles 0 0) 0 0 0).x = 0 ∧
      (getSunPosition (constAngles 0 0) 0 0 0).y = 0 ∧
      (getSunPosition (constAngles 0 0) 0 0 0).z = RADIUS) ∧
    ((getSunPosition (constAngles 0 (π / 2)) 0 0 0).x = -RADIUS ∧
      (getSunPosition (constAngles 0 (π / 2)) 0 0 0).y = 0 ∧
      (getSunPosition (constAngles 0 (π / 2)) 0 0 0).z = 0) := by
  refine ⟨fun az => ?_, ?_, ?_⟩ <;>
    simp [getSunPosition_constAngles, Real.cos_pi_div_two, Real.sin_pi_div_two]

/-- Witness for C7: the zenith case evaluated at azimuth pi. -/
theorem C7_witness :
    (getSunPosition (constAngles (π / 2) π) 0 0 0).x = 0 ∧
    (getSunPosition (constAngles (π / 2) π) 0 0 0).y = RADIUS ∧
    (getSunPosition (constAngles (π / 2) π) 0 0 0).z = 0 :=
  C7_boundary_values.1 π

/-- Claim C8: both core operations are deterministic and stateless: with
a deterministic collaborator, two calls of `getSunPosition` with equal
inputs that receive the same collaborator answer yield equal outputs,
and the illumination state is a pure function of the altitude, so equal
altitudes yield equal illumination states. -/
theorem C8_deterministic_stateless :
    (∀ (f g : Date → ℝ → ℝ → SolarAngles) (d1 d2 : Date) (lat1 lat2 lon1 lon2 : ℝ),
      d1 = d2 → lat1 = lat2 → lon1 = lon2 → f d1 lat1 lon1 = g d2 lat2 lon2 →
      getSunPosition f d1 lat1 lon1 = getSunPosition g d2 lat2 lon2) ∧
    (∀ a1 a2 : ℝ, a1 = a2 → deriveIllumination a1 = deriveIllumination a2) := by
  constructor
  · intro f g d1 d2 lat1 lat2 lon1 lon2 hd hlat hlon hfg
    subst hd; subst hlat; subst hlon
    simp only [getSunPosition, hfg]
  · intro a1 a2 ha
    rw [ha]

/-- Witness for C8: two calls with the constant collaborator returning
altitude 1, azimuth 2, at equal inputs, and two illumination computations
at the same altitude 1. -/
theorem C8_witness :
    getSunPosition (constAngles 1 2) 0 0 0 = getSunPosition (constAngles 1 2) 0 0 0 ∧
    deriveIllumination 1 = deriveIllumination 1 :=
  ⟨C8_deterministic_stateless.1 (constAngles 1 2) (constAngles 1 2)
      0 0 0 0 0 0 rfl rfl rfl rfl,
   C8_deterministic_stateless.2 1 1 rfl⟩

/-- Counterexample to claim C9 as stated: at altitude 3*pi/2 (written
pi + pi/2), which is positive but outside the collaborator's documented
altitude range, the ambient intensity is 0.4 + sin(3*pi/2) * 0.4 = 0,
strictly below the claimed floor 0.05. -/
theorem C9_counterexample :
    (deriveIllumination (π + π / 2)).ambientIntensity < 0.05 := by
  have hpi := Real.pi_pos
  rw [deriveIllumination_of_pos (by linarith)]
  have hs : Real.sin (π + π / 2) = -1 := by
    rw [Real.sin_add, Real.sin_pi, Real.cos_pi, Real.sin_pi_div_two]
    ring
  simp only [hs]
  norm_num

/-- Claim C9, amended: for every altitude the sun marker is visible
exactly when the directional intensity is positive, and both hold exactly
when the altitude is positive; and for every altitude at most pi/2
(covering the collaborator's documented range (-pi/2, pi/2]) the ambient
intensity is at least 0.05, so the scene is never completely unlit. -/
theorem C9_consistency_amended :
    ∀ a : ℝ,
      ((deriveIllumination a).sunMarkerVisible = true ↔
        0 < (deriveIllumination a).directionalIntensity) ∧
      ((deriveIllumination a).sunMarkerVisible = true ↔ 0 < a) ∧
      (a ≤ π / 2 → 0.05 ≤ (deriveIllumination a).ambientIntensity) := by
  intro a
  rcases le_or_lt a 0 with ha | ha
  · rw [deriveIllumination_of_nonpos ha]
    refine ⟨by simp, by simp [not_lt.mpr ha], fun _ => by norm_num⟩
  · rw [deriveIllumination_of_pos ha]
    have hfloor : (0.5 : ℝ) ≤ max 0.5 (Real.sin a * 3.0) := le_max_left _ _
    refine ⟨by simp only [true_iff]; linarith, by simp [ha], fun hle => ?_⟩
    have hpi := Real.pi_pos
    have hs : 0 < Real.sin a := Real.sin_pos_of_pos_of_lt_pi ha (by linarith)
    nlinarith

/-- Witness for C9 amended at altitude 1 (1 is at most pi/2 since pi
exceeds 3): the marker is visible, the directional intensity positive,
and the ambient intensity at least 0.05. -/
theorem C9_witness :
    ((deriveIllumination 1).sunMarkerVisible = true ↔
      0 < (deriveIllumination 1).directionalIntensity) ∧
    ((deriveIllumination 1).sunMarkerVisible = true ↔ (0 : ℝ) < 1) ∧
    0.05 ≤ (deriveIllumination 1).ambientIntensity := by
  have h := C9_consistency_amended 1
  have hle : (1 : ℝ) ≤ π / 2 := by nlinarith [Real.pi_gt_three]
  exact ⟨h.1, h.2.1, h.2.2 hle⟩

/-- Claim C10: for every totalMinutes between 0 and 1439, `formatTime`
returns the 5-character string "HH:MM" where HH is the zero-padded
two-digit rendering of totalMinutes / 60 (in 00..23) and MM the
zero-padded two-digit rendering of totalMinutes % 60 (in 00..59). -/
theorem C10_formatTime_correct :
    ∀ totalMinutes : Nat, totalMinutes ≤ 1439 →
      formatTime totalMinutes =
        twoDigit (totalMinutes / 60) ++ ":" ++ twoDigit (totalMinutes % 60) ∧
      (formatTime totalMinutes).length = 5 ∧
      totalMinutes / 60 ≤ 23 ∧ totalMinutes % 60 ≤ 59 := by
  intro tm htm
  have h1 : tm / 60 < 100 := by omega
  have h2 : tm % 60 < 100 := by omega
  have key : ∀ n < 100, padStart (toString n) 2 '0' = twoDigit n := by decide
  have heq : formatTime tm = twoDigit (tm / 60) ++ ":" ++ twoDigit (tm % 60) := by
    show padStart (toString (tm / 60)) 2 '0' ++ ":" ++ padStart (toString (tm % 60)) 2 '0' =
      twoDigit (tm / 60) ++ ":" ++ twoDigit (tm % 60)
    rw [key _ h1, key _ h2]
  refine ⟨heq, ?_, by omega, by omega⟩
  rw [heq]
  have ha : (twoDigit (tm / 60)).length = 2 := rfl
  have hb : (twoDigit (tm % 60)).length = 2 := rfl
  rw [String.length_append, String.length_append, ha, hb]
  decide

/-- Witness for C10 at totalMinutes 59. -/
theorem C10_witness :
    formatTime 59 = twoDigit (59 / 60) ++ ":" ++ twoDigit (59 % 60) ∧
    (formatTime 59).length = 5 ∧
    59 / 60 ≤ 23 ∧ 59 % 60 ≤ 59 :=
  C10_formatTime_correct 59 (by norm_num)

end SunshadeF1
